import Mathlib

/-!
Verification of the ideal-gas sandbox core (state coordinator and
molecular-dynamics helpers) against its specification.  The definitions
below are a shallow embedding of `src/js/physics.js` (state coordinator
part and simulation part), `src/js/main.js` (commit-on-success caller)
and the van der Waals pressure formula that appears in
`src/js/ui-components/ControlPanel.js`.  Machine numbers are embedded as
exact rationals (coordinator) or reals (simulation geometry).
-/

namespace GasLab

/-- Gas constant, `const R = 8.314` in `physics.js`. -/
def R : ℚ := 8.314

/-- A per-variable `min`/`max` range of the bounds table. -/
structure VarRange where
  min : ℚ
  max : ℚ
deriving DecidableEq

/-- The `BOUNDS` table of `physics.js` together with the
`BOUNDS[variable] || ⟨0,100⟩` fallback of `getBounds`. -/
def getBounds (v : String) : VarRange :=
  if v = "P" then ⟨50, 200⟩
  else if v = "V" then ⟨10, 50⟩
  else if v = "T" then ⟨200, 400⟩
  else if v = "n" then ⟨0.5, 3⟩
  else ⟨0, 100⟩

/-- The four scalar quantities of a gas state (kPa, L, K, mol). -/
structure StateQuad where
  P : ℚ
  V : ℚ
  T : ℚ
  n : ℚ
deriving DecidableEq

/-- The global gas state: the four scalars plus the locked variable
(a string or `null` in the JS store) and the van der Waals parameters
`a`, `b` kept in the state store (ignored by `calculateNewState`). -/
structure GasState extends StateQuad where
  lockedVariable : Option String
  a : ℚ := 0
  b : ℚ := 0
deriving DecidableEq

/-- `isStateValid` of `physics.js`: all four scalars inside `BOUNDS`. -/
def isStateValid (s : StateQuad) : Prop :=
  (getBounds "P").min ≤ s.P ∧ s.P ≤ (getBounds "P").max ∧
  (getBounds "V").min ≤ s.V ∧ s.V ≤ (getBounds "V").max ∧
  (getBounds "T").min ≤ s.T ∧ s.T ≤ (getBounds "T").max ∧
  (getBounds "n").min ≤ s.n ∧ s.n ≤ (getBounds "n").max

instance (s : StateQuad) : Decidable (isStateValid s) := by
  unfold isStateValid; infer_instance

/-- `isValueValid` of `physics.js`: one value inside its range. -/
def isValueValid (v : String) (x : ℚ) : Prop :=
  (getBounds v).min ≤ x ∧ x ≤ (getBounds v).max

instance (v : String) (x : ℚ) : Decidable (isValueValid v x) := by
  unfold isValueValid; infer_instance

/-- `clamp` of `physics.js`: `Math.max(min, Math.min(max, value))`. -/
def clamp (value lo hi : ℚ) : ℚ :=
  max lo (min hi value)

/-- A change request `{variable, value}`; `varName` stands for the JS
field `variable` (a Lean keyword). -/
structure ChangeInfo where
  varName : String
  value : ℚ
deriving DecidableEq

/-- The result of `calculateNewState`: `{success: true, newState}` or
`{success: false, reason}`; no other field is ever set in
`src/js/physics.js`. -/
inductive CoordResult where
  | success (newState : StateQuad) : CoordResult
  | failure (reason : String) : CoordResult
deriving DecidableEq

/-- The copy-and-apply step at the top of
`calculateWithMolesAsCoordinator`: the requested variable is set to the
requested value, `n` is kept. -/
def appliedRequest (g : GasState) (c : ChangeInfo) : StateQuad :=
  { P := if c.varName = "P" then c.value else g.P
    V := if c.varName = "V" then c.value else g.V
    T := if c.varName = "T" then c.value else g.T
    n := g.n }

/-- The lock/changed-variable switch of `calculateWithMolesAsCoordinator`:
the dependent variable's name and its theoretical value, or `none` when
no pairing is defined (then the JS leaves `dependentVariable`
undefined). -/
def dependentOf (g : GasState) (c : ChangeInfo) : Option (String × ℚ) :=
  let newP := if c.varName = "P" then c.value else g.P
  let newV := if c.varName = "V" then c.value else g.V
  let newT := if c.varName = "T" then c.value else g.T
  match g.lockedVariable with
  | some l =>
    if l = "P" then
      if c.varName = "T" then some ("V", g.n * R * newT / (g.P * 1000) * 1000)
      else if c.varName = "V" then some ("T", g.P * 1000 * newV / 1000 / (g.n * R))
      else none
    else if l = "V" then
      if c.varName = "T" then some ("P", g.n * R * newT / (g.V / 1000) / 1000)
      else if c.varName = "P" then some ("T", newP * 1000 * g.V / 1000 / (g.n * R))
      else none
    else if l = "T" then
      if c.varName = "V" then some ("P", g.n * R * g.T / (newV / 1000) / 1000)
      else if c.varName = "P" then some ("V", g.n * R * g.T / (newP * 1000) * 1000)
      else none
    else none
  | none =>
    if c.varName = "P" then some ("T", newP * 1000 * g.V / 1000 / (g.n * R))
    else if c.varName = "V" then some ("P", g.n * R * g.T / (newV / 1000) / 1000)
    else if c.varName = "T" then some ("P", g.n * R * newT / (g.V / 1000) / 1000)
    else none

/-- Writing one named scalar of a quad, as the three `if` assignments of
the JS do. -/
def setVar (s : StateQuad) (v : String) (x : ℚ) : StateQuad :=
  { P := if v = "P" then x else s.P
    V := if v = "V" then x else s.V
    T := if v = "T" then x else s.T
    n := s.n }

/-- `calculateWithMolesAsCoordinator` of `physics.js`. -/
def calculateWithMolesAsCoordinator (g : GasState) (c : ChangeInfo) : CoordResult :=
  match dependentOf g c with
  | some dt =>
    if isValueValid dt.1 dt.2 then
      CoordResult.success (setVar (appliedRequest g c) dt.1 dt.2)
    else
      let bounds := getBounds dt.1
      let clampedValue := clamp dt.2 bounds.min bounds.max
      let aState := setVar (appliedRequest g c) dt.1 clampedValue
      let calculatedN := aState.P * 1000 * aState.V / 1000 / (R * aState.T)
      if isValueValid "n" calculatedN then
        CoordResult.success { aState with n := calculatedN }
      else
        CoordResult.failure (dt.1 ++ r"超界且物质的量协调失败")
  | none => CoordResult.failure (r"未知计算错误")

/-- `calculateWithDirectMolesChange` of `physics.js`. -/
def calculateWithDirectMolesChange (g : GasState) (c : ChangeInfo) : CoordResult :=
  let newN := c.value
  let proposed : StateQuad :=
    match g.lockedVariable with
    | some l =>
      if l = "P" then
        { P := g.P, V := newN * R * g.T / (g.P * 1000) * 1000, T := g.T, n := newN }
      else if l = "V" ∨ l = "T" then
        { P := newN * R * g.T / (g.V / 1000) / 1000, V := g.V, T := g.T, n := newN }
      else
        { P := g.P, V := g.V, T := g.T, n := newN }
    | none =>
      { P := newN * R * g.T / (g.V / 1000) / 1000, V := g.V, T := g.T, n := newN }
  if isStateValid proposed then CoordResult.success proposed
  else CoordResult.failure (r"物质的量变化导致其他变量超出边界")

/-- `calculateNewState` of `physics.js` (the public `computeNewState`). -/
def calculateNewState (g : GasState) (c : ChangeInfo) : CoordResult :=
  if c.varName = "n" then calculateWithDirectMolesChange g c
  else calculateWithMolesAsCoordinator g c

/-- The caller in `main.js`: on success the four scalars of the result
are merged into the store, on failure the state is left untouched. -/
def handleControlChange (g : GasState) (c : ChangeInfo) : GasState :=
  match calculateNewState g c with
  | CoordResult.success ns => { g with toStateQuad := ns }
  | CoordResult.failure _ => g

/-- Ideal-gas pressure `n·R·T/V` in the kPa·L unit convention of
`physics.js` (all its `*1000` and `/1000` conversions cancel to this). -/
def idealPressure (s : StateQuad) : ℚ :=
  s.n * R * s.T / s.V

/-- Van der Waals pressure as written in `generateRealGasCurve` of
`ControlPanel.js`: `nRT/(V−nb) − a(n/V)²`. -/
def vdwPressure (a b : ℚ) (s : StateQuad) : ℚ :=
  s.n * R * s.T / (s.V - s.n * b) - a * (s.n / s.V) ^ 2

/-- The pressure given by the active equation of state of the claims:
ideal when `a` and `b` are both zero, van der Waals otherwise. -/
def activeEoSPressure (a b : ℚ) (s : StateQuad) : ℚ :=
  if a = 0 ∧ b = 0 then idealPressure s else vdwPressure a b s

/-- A quad satisfies the active equation of state within `1e-4` relative
tolerance (tolerance relative to the equation-of-state pressure). -/
def satisfiesActiveEoS (a b : ℚ) (s : StateQuad) : Prop :=
  |s.P - activeEoSPressure a b s| ≤ (1 / 10000) * |activeEoSPressure a b s|

instance (a b : ℚ) (s : StateQuad) : Decidable (satisfiesActiveEoS a b s) := by
  unfold satisfiesActiveEoS; infer_instance

/-! ### Simulation world: configuration and piston/volume mapping -/

/-- `SIMULATION_CONFIG.width` (the fixed default canvas width). -/
def simWidth : ℚ := 400

/-- `SIMULATION_CONFIG.height` (the fixed default canvas height). -/
def simHeight : ℚ := 250

/-- `SIMULATION_CONFIG.particleRadius`. -/
def particleRadius : ℚ := 5

/-- `SIMULATION_CONFIG.pistonThickness`. -/
def pistonThickness : ℚ := 30

/-- `SIMULATION_CONFIG.wallThickness`. -/
def wallThickness : ℚ := 20

/-- `VOLUME_MAPPING.minVolume`, never reassigned. -/
def minVolume : ℚ := 10

/-- `VOLUME_MAPPING.maxVolume`, never reassigned. -/
def maxVolume : ℚ := 50

/-- The mutable part of `VOLUME_MAPPING`: `minX` and `maxX` are
recomputed from the container size in `initPhysicsEngine`. -/
structure VolumeMapping where
  minX : ℚ
  maxX : ℚ
deriving DecidableEq

/-- The initial `VOLUME_MAPPING` values `minX = 100`, `maxX = 300`. -/
def defaultMapping : VolumeMapping := ⟨100, 300⟩

/-- `calculatePistonPosition` of `physics.js`: clamp the volume into
`[minVolume, maxVolume]` and map it linearly onto `[minX, maxX]`. -/
def calculatePistonPosition (vm : VolumeMapping) (volume : ℚ) : ℚ :=
  let clampedVolume := max minVolume (min maxVolume volume)
  let normalizedVolume := (clampedVolume - minVolume) / (maxVolume - minVolume)
  vm.minX + normalizedVolume * (vm.maxX - vm.minX)

/-- `calculateTargetXFromVolume` of `physics.js`: the wall-centre target
is the piston position minus half the piston thickness. -/
def calculateTargetXFromVolume (vm : VolumeMapping) (volume : ℚ) : ℚ :=
  calculatePistonPosition vm volume - pistonThickness / 2

/-- `calculateVolumeFromWallPosition` of `physics.js`: inverse mapping
with a clamp on the coordinate and a final clamp on the volume. -/
def calculateVolumeFromWallPosition (vm : VolumeMapping) (wallX : ℚ) : ℚ :=
  let pistonX := wallX + pistonThickness / 2
  let clampedX := max vm.minX (min vm.maxX pistonX)
  let normalizedX := (clampedX - vm.minX) / (vm.maxX - vm.minX)
  let volume := minVolume + normalizedX * (maxVolume - minVolume)
  max minVolume (min maxVolume volume)

/-- The piston wall body: position and velocity. -/
structure Wall where
  x : ℚ
  y : ℚ
  vx : ℚ
  vy : ℚ
deriving DecidableEq

/-- The `beforeUpdate` homing handler of `physics.js`: a no-op while
`state.isDragging`; otherwise drive the wall toward the volume-derived
target with gain `0.2`, stopping and snapping inside the dead band. -/
def homingStep (vm : VolumeMapping) (isDragging : Bool) (V : ℚ) (w : Wall) : Wall :=
  if isDragging then w
  else
    let targetX := calculateTargetXFromVolume vm V
    let distance := targetX - w.x
    if |distance| < 0.5 then
      let w1 : Wall := { w with vx := 0, vy := 0 }
      if |distance| > 0.1 then { w1 with x := targetX } else w1
    else
      { w with vx := distance * 0.2, vy := 0 }

/-! ### Simulation world: particles -/

/-- A gas particle: position and velocity (mass 1, radius
`particleRadius` are fixed at creation). -/
structure Particle where
  x : ℝ
  y : ℝ
  vx : ℝ
  vy : ℝ

/-- `SPEED_CURVE_CONFIG.SPEED_EXPONENT`. -/
def SPEED_EXPONENT : ℝ := 2.5

/-- `SPEED_CURVE_CONFIG.MIN_SPEED`. -/
def MIN_SPEED : ℝ := 0.12

/-- `SPEED_CURVE_CONFIG.MAX_SPEED`. -/
def MAX_SPEED : ℝ := 3.3

/-- `SPEED_CURVE_CONFIG.TEMP_MIN`. -/
def TEMP_MIN : ℝ := 200

/-- `SPEED_CURVE_CONFIG.TEMP_MAX`. -/
def TEMP_MAX : ℝ := 400

/-- The speed computed in `applyTemperatureToMolecules`: normalise the
temperature, raise to the exponent, interpolate the speed range. -/
noncomputable def baseSpeedOf (temperature : ℝ) : ℝ :=
  let normalizedTemp := (temperature - TEMP_MIN) / (TEMP_MAX - TEMP_MIN)
  let curvedValue := (max 0 (min 1 normalizedTemp)) ^ SPEED_EXPONENT
  MIN_SPEED + (MAX_SPEED - MIN_SPEED) * curvedValue

/-- `applyTemperatureToMolecules` of `physics.js`: every particle gets a
fresh random direction (the angle oracle stands for `Math.random()*2π`)
at the temperature-derived speed. -/
noncomputable def applyTemperatureToMolecules (temperature : ℝ) (angles : ℕ → ℝ)
    (ps : List Particle) : List Particle :=
  let baseSpeed := baseSpeedOf temperature
  ps.mapIdx fun i p =>
    { p with vx := Real.cos (angles i) * baseSpeed, vy := Real.sin (angles i) * baseSpeed }

/-- The particle count used by `createParticles`:
`Math.max(1, Math.round(moles * 20))`. -/
def createParticleCount (moles : ℚ) : ℤ :=
  max 1 (round (moles * 20))

/-- The target count used by `updateParticleCountAndSpeed`:
`Math.round(moles * 10)`. -/
def updateTargetCount (moles : ℚ) : ℤ :=
  round (moles * 10)

/-- The spawn margin of the update path:
`wallThickness + particleRadius + 5`. -/
def updSafeMargin : ℚ := wallThickness + particleRadius + 5

/-- The spawn upper x bound of the update path, computed from the
hard-coded default volume `22.4`:
`calculatePistonPosition(22.4) - pistonThickness/2 - particleRadius - 5`. -/
def updSpawnMaxX (vm : VolumeMapping) : ℚ :=
  calculatePistonPosition vm 22.4 - pistonThickness / 2 - particleRadius - 5

/-- One freshly spawned particle of the update path; `r1`, `r2` stand
for the two `Math.random()` draws; a new Matter body starts at rest. -/
def spawnParticle (vm : VolumeMapping) (r1 r2 : ℝ) : Particle :=
  { x := r1 * ((updSpawnMaxX vm : ℝ) - (updSafeMargin : ℝ)) + (updSafeMargin : ℝ)
    y := r2 * ((simHeight : ℝ) - 2 * (updSafeMargin : ℝ)) + (updSafeMargin : ℝ)
    vx := 0
    vy := 0 }

/-- The count-adjustment step of `updateParticleCountAndSpeed`: append
fresh particles when below target, drop from the end (`splice(-k)`)
when above, leave the list alone when equal. -/
def updateParticleCount (ps : List Particle) (target : ℕ) (fresh : ℕ → Particle) :
    List Particle :=
  if ps.length < target then ps ++ (List.range (target - ps.length)).map fresh
  else if target < ps.length then ps.take target
  else ps

/-- `updateParticleCountAndSpeed` of `physics.js`: adjust the count to
`Math.round(moles * 10)` (a negative target, impossible for positive
moles, removes everything, hence `toNat`), then apply the temperature
to all molecules. -/
noncomputable def updateParticleCountAndSpeed (vm : VolumeMapping) (ps : List Particle)
    (moles : ℚ) (temperature : ℝ) (r1 r2 : ℕ → ℝ) (angles : ℕ → ℝ) : List Particle :=
  let targetCount := (updateTargetCount moles).toNat
  let adjusted := updateParticleCount ps targetCount
    (fun i => spawnParticle vm (r1 i) (r2 i))
  applyTemperatureToMolecules temperature angles adjusted

/-! ### Simulation world: boundary enforcer -/

/-- The `bounds` rectangle computed at the top of
`enforceAllBoundaries`: every wall contributes `wallThickness / 2` from
its centre — including the piston (`walls.right`), whose actual body is
`pistonThickness` thick. -/
structure WallBounds where
  left : ℝ
  right : ℝ
  top : ℝ
  bottom : ℝ

/-- The bounds as computed from the wall body centres in
`enforceAllBoundaries`. -/
noncomputable def wallInnerBounds (leftWallX pistonCenterX topWallY bottomWallY : ℝ) :
    WallBounds :=
  { left := leftWallX + (wallThickness : ℝ) / 2
    right := pistonCenterX - (wallThickness : ℝ) / 2
    top := topWallY + (wallThickness : ℝ) / 2
    bottom := bottomWallY - (wallThickness : ℝ) / 2 }

/-- The per-particle body of `enforceAllBoundaries`: the x planes are
checked first (`if` / `else if`), then the y planes; positions are
corrected onto the plane and only a velocity component pointing further
outward is negated (all reads of the velocity use its original value,
as the JS only calls `setVelocity` once at the end). -/
noncomputable def enforceParticle (bd : WallBounds) (p : Particle) : Particle :=
  let radius := (particleRadius : ℝ)
  let nvx :=
    if p.x - radius < bd.left then (if p.vx < 0 then -p.vx else p.vx)
    else if p.x + radius > bd.right then (if p.vx > 0 then -p.vx else p.vx)
    else p.vx
  let nx :=
    if p.x - radius < bd.left then bd.left + radius
    else if p.x + radius > bd.right then bd.right - radius
    else p.x
  let nvy :=
    if p.y - radius < bd.top then (if p.vy < 0 then -p.vy else p.vy)
    else if p.y + radius > bd.bottom then (if p.vy > 0 then -p.vy else p.vy)
    else p.vy
  let ny :=
    if p.y - radius < bd.top then bd.top + radius
    else if p.y + radius > bd.bottom then bd.bottom - radius
    else p.y
  { x := nx, y := ny, vx := nvx, vy := nvy }

/-- `enforceAllBoundaries` of `physics.js` over the particle list. -/
noncomputable def enforceAllBoundaries (bd : WallBounds) (ps : List Particle) :
    List Particle :=
  ps.map (enforceParticle bd)

/-! ### Simulation world: elastic collision resolver -/

/-- A Matter body as used by `resolveElasticCollision`: position,
velocity and mass. -/
structure SimBody where
  x : ℝ
  y : ℝ
  vx : ℝ
  vy : ℝ
  mass : ℝ

/-- `resolveElasticCollision` of `physics.js`: decompose both
velocities along the centre line (normal) and its perpendicular
(tangent), apply the 1-D elastic formulas to the normal components,
keep the tangential ones, recompose. Coincident centres are left
untouched (the `distance === 0` guard). -/
noncomputable def resolveElasticCollision (body1 body2 : SimBody) : SimBody × SimBody :=
  let nx := body2.x - body1.x
  let ny := body2.y - body1.y
  let distance := Real.sqrt (nx ^ 2 + ny ^ 2)
  if distance = 0 then (body1, body2)
  else
    let unx := nx / distance
    let uny := ny / distance
    let utx := -uny
    let uty := unx
    let v1n := unx * body1.vx + uny * body1.vy
    let v1t := utx * body1.vx + uty * body1.vy
    let v2n := unx * body2.vx + uny * body2.vy
    let v2t := utx * body2.vx + uty * body2.vy
    let v1nNew := (v1n * (body1.mass - body2.mass) + 2 * body2.mass * v2n) / (body1.mass + body2.mass)
    let v2nNew := (v2n * (body2.mass - body1.mass) + 2 * body1.mass * v1n) / (body1.mass + body2.mass)
    ({ body1 with vx := v1nNew * unx + v1t * utx, vy := v1nNew * uny + v1t * uty },
     { body2 with vx := v2nNew * unx + v2t * utx, vy := v2nNew * uny + v2t * uty })

/-! ## Theorems -/

/-- Claim C8: the coordinator never checks the requested value against
the bounds table: from the in-bounds state `P=101.325, V=22.4, T=400,
n=1` (no lock), the request `V := 60` — whose value `60` is outside the
volume bound `[10,50]` — returns success, and the returned state
carries `V = 60`, so the success state violates the bounds table. -/
theorem C8_requested_value_unchecked :
    isStateValid (⟨101.325, 22.4, 400, 1⟩ : StateQuad) ∧
    ¬ isValueValid "V" 60 ∧
    calculateNewState ⟨⟨101.325, 22.4, 400, 1⟩, none, 0, 0⟩ ⟨"V", 60⟩ =
      CoordResult.success ⟨4157 / 75, 60, 400, 1⟩ ∧
    ¬ isStateValid (⟨4157 / 75, 60, 400, 1⟩ : StateQuad) := by
  refine ⟨by norm_num +decide [isStateValid, getBounds], by norm_num +decide [isValueValid, getBounds], ?_,
    by norm_num +decide [isStateValid, getBounds]⟩
  have hdep : dependentOf ⟨⟨101.325, 22.4, 400, 1⟩, none, 0, 0⟩ ⟨"V", 60⟩ =
      some ("P", 4157 / 75) := by
    norm_num +decide [dependentOf, R]
  rw [calculateNewState, if_neg (by decide), calculateWithMolesAsCoordinator, hdep]
  norm_num +decide [isValueValid, getBounds, setVar, appliedRequest]

/-- Claim C9: a coordinator-mode request whose variable equals the
locked variable, or whose lock is any string other than `P`, `V`, `T`,
falls through the pairing switch and returns the generic fallback
failure, never a success. -/
theorem C9_no_dependent_pairing_fails (g : GasState) (c : ChangeInfo)
    (hv : c.varName = "P" ∨ c.varName = "V" ∨ c.varName = "T")
    (hl : g.lockedVariable = some c.varName ∨
      ∃ l, g.lockedVariable = some l ∧ l ≠ "P" ∧ l ≠ "V" ∧ l ≠ "T") :
    calculateNewState g c = CoordResult.failure (r"未知计算错误") := by
  have hdep : dependentOf g c = none := by
    rcases hl with hl | ⟨l, hl, h1, h2, h3⟩
    · rcases hv with hv | hv | hv <;> simp +decide [dependentOf, hl, hv]
    · rcases hv with hv | hv | hv <;> simp +decide [dependentOf, hl, hv, h1, h2, h3]
  have hne : c.varName ≠ "n" := by
    rcases hv with hv | hv | hv <;> simp +decide [hv]
  rw [calculateNewState, if_neg hne, calculateWithMolesAsCoordinator, hdep]

/-- Witness for C9: changing `P` while `P` is locked fails with the
generic fallback reason. -/
theorem C9_no_dependent_pairing_fails_witness :
    calculateNewState ⟨⟨100, 20, 300, 1⟩, some "P", 0, 0⟩ ⟨"P", 150⟩ =
      CoordResult.failure (r"未知计算错误") :=
  C9_no_dependent_pairing_fails _ _ (Or.inl rfl) (Or.inl rfl)

/-- Claim C1 is refuted on the code: the coordinator ignores the van
der Waals parameters entirely. From the in-bounds state `P=100,
V=22.4, T=273.15, n=1` with the CO₂ parameters `a=364.3, b=0.0427`
(so the active equation of state of the claim is the van der Waals
one), the in-bounds request `V := 20` succeeds, but the returned state
misses the van der Waals pressure by ≈ 0.59 % — far beyond the claimed
`1e-4` relative tolerance. -/
theorem C1_counterexample :
    isStateValid (⟨100, 22.4, 273.15, 1⟩ : StateQuad) ∧
    ¬ ((364.3 : ℚ) = 0 ∧ (0.0427 : ℚ) = 0) ∧
    isValueValid "V" 20 ∧
    calculateNewState ⟨⟨100, 22.4, 273.15, 1⟩, none, 364.3, 0.0427⟩ ⟨"V", 20⟩ =
      CoordResult.success ⟨22709691 / 200000, 20, 5463 / 20, 1⟩ ∧
    ¬ satisfiesActiveEoS 364.3 0.0427 ⟨22709691 / 200000, 20, 5463 / 20, 1⟩ := by
  refine ⟨by norm_num +decide [isStateValid, getBounds], by norm_num,
    by norm_num +decide [isValueValid, getBounds], ?_, ?_⟩
  · have hdep : dependentOf ⟨⟨100, 22.4, 273.15, 1⟩, none, 364.3, 0.0427⟩ ⟨"V", 20⟩ =
        some ("P", 22709691 / 200000) := by
      norm_num +decide [dependentOf, R]
    rw [calculateNewState, if_neg (by decide), calculateWithMolesAsCoordinator, hdep]
    norm_num +decide [isValueValid, getBounds, setVar, appliedRequest]
  · have hv : activeEoSPressure 364.3 0.0427 ⟨22709691 / 200000, 20, 5463 / 20, 1⟩ =
        90111719561 / 798292000 := by
      norm_num [activeEoSPressure, vdwPressure, R]
    unfold satisfiesActiveEoS
    rw [hv, abs_of_nonneg (by norm_num), abs_of_nonneg (by norm_num)]
    norm_num

/-- Claim C2 is refuted on the code. First, at the claim's own example
(state `P=101.325, V=22.4, T=273.15, n=1`, no lock, request
`V := 11.2`) the result is exactly `success` with the clamped `P=200`
and the re-derived `n` — and nothing else: the source builds the
result as `{success, newState}` only, so no advisory notification
accompanies it. Second, two coordination failures whose out-of-range
re-derived moles differ (`12500/4157` versus `12475/4157`, the last
conjunct) return the identical literal reason, so the failure reason
cannot be stating the out-of-range `n`. -/
theorem C2_counterexample :
    calculateNewState ⟨⟨101.325, 22.4, 273.15, 1⟩, none, 0, 0⟩ ⟨"V", 11.2⟩ =
      CoordResult.success ⟨200, 11.2, 273.15, 22400000 / 22709691⟩ ∧
    calculateNewState ⟨⟨200, 30, 250, 3⟩, some "P", 0, 0⟩ ⟨"V", 50⟩ =
      CoordResult.failure (r"T超界且物质的量协调失败") ∧
    calculateNewState ⟨⟨100, 50, 250, 3⟩, some "V", 0, 0⟩ ⟨"P", 199.6⟩ =
      CoordResult.failure (r"T超界且物质的量协调失败") ∧
    (200 * 1000 * 50 / 1000 / (R * 400) : ℚ) ≠ 199.6 * 1000 * 50 / 1000 / (R * 400) := by
  refine ⟨?_, ?_, ?_, by norm_num [R]⟩
  · have hdep : dependentOf ⟨⟨101.325, 22.4, 273.15, 1⟩, none, 0, 0⟩ ⟨"V", 11.2⟩ =
        some ("P", 22709691 / 112000) := by
      norm_num +decide [dependentOf, R]
    rw [calculateNewState, if_neg (by decide), calculateWithMolesAsCoordinator, hdep]
    norm_num +decide [isValueValid, getBounds, setVar, appliedRequest, clamp, R]
  · have hdep : dependentOf ⟨⟨200, 30, 250, 3⟩, some "P", 0, 0⟩ ⟨"V", 50⟩ =
        some ("T", 5000000 / 12471) := by
      norm_num +decide [dependentOf, R]
    rw [calculateNewState, if_neg (by decide), calculateWithMolesAsCoordinator, hdep]
    norm_num +decide [isValueValid, getBounds, setVar, appliedRequest, clamp, R]
  · have hdep : dependentOf ⟨⟨100, 50, 250, 3⟩, some "V", 0, 0⟩ ⟨"P", 199.6⟩ =
        some ("T", 4990000 / 12471) := by
      norm_num +decide [dependentOf, R]
    rw [calculateNewState, if_neg (by decide), calculateWithMolesAsCoordinator, hdep]
    norm_num +decide [isValueValid, getBounds, setVar, appliedRequest, clamp, R]

/-- Claim C3 is refuted in its failure-reason detail: two direct-moles
failures in which different variables go out of range — `V` (to
`120553/625 ≈ 192.9 L`) under a `P` lock, and `P` (to ≈ 964 kPa) under
a `V` lock, everything else in bounds — return the identical fixed
reason string, so the reason does not cite which variable is out of
range. -/
theorem C3_counterexample :
    isStateValid (⟨50, 40, 400, 1⟩ : StateQuad) ∧
    isStateValid (⟨100, 10, 400, 1⟩ : StateQuad) ∧
    ¬ isValueValid "V" (2.9 * R * 400 / (50 * 1000) * 1000) ∧
    isValueValid "n" 2.9 ∧
    ¬ isValueValid "P" (2.9 * R * 400 / (10 / 1000) / 1000) ∧
    calculateNewState ⟨⟨50, 40, 400, 1⟩, some "P", 0, 0⟩ ⟨"n", 2.9⟩ =
      CoordResult.failure (r"物质的量变化导致其他变量超出边界") ∧
    calculateNewState ⟨⟨100, 10, 400, 1⟩, some "V", 0, 0⟩ ⟨"n", 2.9⟩ =
      CoordResult.failure (r"物质的量变化导致其他变量超出边界") := by
  refine ⟨by norm_num +decide [isStateValid, getBounds], by norm_num +decide [isStateValid, getBounds],
    by norm_num +decide [isValueValid, getBounds, R], by norm_num +decide [isValueValid, getBounds],
    by norm_num +decide [isValueValid, getBounds, R], ?_, ?_⟩
  · rw [calculateNewState, if_pos rfl]
    norm_num +decide [calculateWithDirectMolesChange, isStateValid, getBounds, R]
  · rw [calculateNewState, if_pos rfl]
    norm_num +decide [calculateWithDirectMolesChange, isStateValid, getBounds, R]

/-- Every row of the bounds table — the fallback `⟨0, 100⟩` included —
has its minimum below its maximum. -/
theorem getBounds_min_le_max (dv : String) :
    (getBounds dv).min ≤ (getBounds dv).max := by
  unfold getBounds
  split_ifs <;> norm_num

/-- Unfolded form of `isStateValid`. -/
theorem isStateValid_iff (s : StateQuad) :
    isStateValid s ↔
      50 ≤ s.P ∧ s.P ≤ 200 ∧ 10 ≤ s.V ∧ s.V ≤ 50 ∧
      200 ≤ s.T ∧ s.T ≤ 400 ∧ 1 / 2 ≤ s.n ∧ s.n ≤ 3 := by
  norm_num +decide [isStateValid, getBounds]

/-- Unfolded form of `isValueValid "P"`. -/
theorem isValueValid_P (x : ℚ) : isValueValid "P" x ↔ 50 ≤ x ∧ x ≤ 200 := by
  norm_num +decide [isValueValid, getBounds]

/-- Unfolded form of `isValueValid "V"`. -/
theorem isValueValid_V (x : ℚ) : isValueValid "V" x ↔ 10 ≤ x ∧ x ≤ 50 := by
  norm_num +decide [isValueValid, getBounds]

/-- Unfolded form of `isValueValid "T"`. -/
theorem isValueValid_T (x : ℚ) : isValueValid "T" x ↔ 200 ≤ x ∧ x ≤ 400 := by
  norm_num +decide [isValueValid, getBounds]

/-- Unfolded form of `isValueValid "n"`. -/
theorem isValueValid_n (x : ℚ) : isValueValid "n" x ↔ 1 / 2 ≤ x ∧ x ≤ 3 := by
  norm_num +decide [isValueValid, getBounds]

/-- A clamped value lies between the two bounds. -/
theorem clamp_mem (x lo hi : ℚ) (h : lo ≤ hi) :
    lo ≤ clamp x lo hi ∧ clamp x lo hi ≤ hi := by
  unfold clamp
  exact ⟨le_max_left _ _, max_le h (min_le_left _ _)⟩

/-- When the pairing switch yields a dependent value inside its bound,
the coordinator adopts it on top of the applied request. -/
theorem coord_adopt_eq (g : GasState) (c : ChangeInfo) (dv : String) (tv : ℚ)
    (hn : c.varName ≠ "n") (hdep : dependentOf g c = some (dv, tv))
    (hin : isValueValid dv tv) :
    calculateNewState g c = CoordResult.success (setVar (appliedRequest g c) dv tv) := by
  rw [calculateNewState, if_neg hn, calculateWithMolesAsCoordinator, hdep]
  simp only [hin, if_true, ite_true]

/-- When the dependent value is out of its bound, the coordinator
clamps it and decides on the re-derived moles. -/
theorem coord_clamp_eq (g : GasState) (c : ChangeInfo) (dv : String) (tv : ℚ)
    (hn : c.varName ≠ "n") (hdep : dependentOf g c = some (dv, tv))
    (hout : ¬ isValueValid dv tv) :
    calculateNewState g c =
      if isValueValid "n"
          ((setVar (appliedRequest g c) dv (clamp tv (getBounds dv).min (getBounds dv).max)).P
            * 1000 *
            (setVar (appliedRequest g c) dv (clamp tv (getBounds dv).min (getBounds dv).max)).V
            / 1000 /
            (R * (setVar (appliedRequest g c) dv
              (clamp tv (getBounds dv).min (getBounds dv).max)).T)) then
        CoordResult.success
          { setVar (appliedRequest g c) dv (clamp tv (getBounds dv).min (getBounds dv).max) with
            n := (setVar (appliedRequest g c) dv
                (clamp tv (getBounds dv).min (getBounds dv).max)).P * 1000 *
              (setVar (appliedRequest g c) dv
                (clamp tv (getBounds dv).min (getBounds dv).max)).V / 1000 /
              (R * (setVar (appliedRequest g c) dv
                (clamp tv (getBounds dv).min (getBounds dv).max)).T) }
      else CoordResult.failure (dv ++ r"超界且物质的量协调失败") := by
  rw [calculateNewState, if_neg hn, calculateWithMolesAsCoordinator, hdep]
  simp only [hout, if_false, ite_false]

/-- When the pairing switch defines no dependent variable, the
coordinator returns the fallback failure. -/
theorem coord_none_eq (g : GasState) (c : ChangeInfo)
    (hn : c.varName ≠ "n") (hdep : dependentOf g c = none) :
    calculateNewState g c = CoordResult.failure (r"未知计算错误") := by
  rw [calculateNewState, if_neg hn, calculateWithMolesAsCoordinator, hdep]

/-- Direct moles mode under a `P` lock: hold `P`, recompute `V`. -/
theorem direct_eq_lockP (g : GasState) (c : ChangeInfo)
    (hv : c.varName = "n") (hl : g.lockedVariable = some "P") :
    calculateNewState g c =
      if isStateValid ⟨g.P, c.value * R * g.T / (g.P * 1000) * 1000, g.T, c.value⟩ then
        CoordResult.success ⟨g.P, c.value * R * g.T / (g.P * 1000) * 1000, g.T, c.value⟩
      else CoordResult.failure (r"物质的量变化导致其他变量超出边界") := by
  rw [calculateNewState, if_pos hv, calculateWithDirectMolesChange]
  simp +decide only [hl, reduceIte]

/-- Direct moles mode with `V` or `T` locked or nothing locked: hold
`V`, recompute `P` (the three switch branches share one formula). -/
theorem direct_eq_keepV (g : GasState) (c : ChangeInfo)
    (hv : c.varName = "n")
    (hl : g.lockedVariable = none ∨ g.lockedVariable = some "V" ∨
      g.lockedVariable = some "T") :
    calculateNewState g c =
      if isStateValid ⟨c.value * R * g.T / (g.V / 1000) / 1000, g.V, g.T, c.value⟩ then
        CoordResult.success ⟨c.value * R * g.T / (g.V / 1000) / 1000, g.V, g.T, c.value⟩
      else CoordResult.failure (r"物质的量变化导致其他变量超出边界") := by
  rw [calculateNewState, if_pos hv, calculateWithDirectMolesChange]
  rcases hl with hl | hl | hl <;> simp +decide only [hl, reduceIte]

/-- The common shape of every coordinator case with a defined pairing:
when the applied request is in bounds and the adopted state satisfies
the ideal-gas identity, the call either fails or succeeds with an
in-bounds state satisfying the identity. -/
theorem coord_defined_spec (g : GasState) (c : ChangeInfo) (dv : String) (tv : ℚ)
    (hvn : c.varName ≠ "n")
    (hdep : dependentOf g c = some (dv, tv))
    (hdv : dv = "P" ∨ dv = "V" ∨ dv = "T")
    (hA : isStateValid (appliedRequest g c))
    (hid : (setVar (appliedRequest g c) dv tv).P * (setVar (appliedRequest g c) dv tv).V =
      (setVar (appliedRequest g c) dv tv).n * R * (setVar (appliedRequest g c) dv tv).T) :
    (∃ reason, calculateNewState g c = CoordResult.failure reason) ∨
    (∃ ns, calculateNewState g c = CoordResult.success ns ∧
      ns.P * ns.V = ns.n * R * ns.T ∧ isStateValid ns) := by
  set A := appliedRequest g c with hAdef
  rw [isStateValid_iff] at hA
  obtain ⟨hA1, hA2, hA3, hA4, hA5, hA6, hA7, hA8⟩ := hA
  have hR0 : R ≠ 0 := by norm_num [R]
  by_cases hin : isValueValid dv tv
  · right
    refine ⟨setVar A dv tv, coord_adopt_eq g c dv tv hvn hdep hin, hid, ?_⟩
    rcases hdv with h | h | h <;> subst h
    · have hQ : setVar A "P" tv = ⟨tv, A.V, A.T, A.n⟩ := by
        simp +decide only [setVar, reduceIte]
      rw [isValueValid_P] at hin
      rw [hQ, isStateValid_iff]
      exact ⟨hin.1, hin.2, hA3, hA4, hA5, hA6, hA7, hA8⟩
    · have hQ : setVar A "V" tv = ⟨A.P, tv, A.T, A.n⟩ := by
        simp +decide only [setVar, reduceIte]
      rw [isValueValid_V] at hin
      rw [hQ, isStateValid_iff]
      exact ⟨hA1, hA2, hin.1, hin.2, hA5, hA6, hA7, hA8⟩
    · have hQ : setVar A "T" tv = ⟨A.P, A.V, tv, A.n⟩ := by
        simp +decide only [setVar, reduceIte]
      rw [isValueValid_T] at hin
      rw [hQ, isStateValid_iff]
      exact ⟨hA1, hA2, hA3, hA4, hin.1, hin.2, hA7, hA8⟩
  · have heq := coord_clamp_eq g c dv tv hvn hdep hin
    rcases hdv with h | h | h <;> subst h
    · have hb1 : (getBounds "P").min = 50 := by norm_num +decide [getBounds]
      have hb2 : (getBounds "P").max = 200 := by norm_num +decide [getBounds]
      rw [hb1, hb2] at heq
      have hQ : setVar A "P" (clamp tv 50 200) = ⟨clamp tv 50 200, A.V, A.T, A.n⟩ := by
        simp +decide only [setVar, reduceIte]
      rw [hQ] at heq
      dsimp only at heq
      obtain ⟨hcl1, hcl2⟩ := clamp_mem tv 50 200 (by norm_num)
      by_cases hcn : isValueValid "n" (clamp tv 50 200 * 1000 * A.V / 1000 / (R * A.T))
      · right
        rw [heq, if_pos hcn]
        refine ⟨_, rfl, ?_, ?_⟩
        · have hT0 : A.T ≠ 0 := ne_of_gt (by linarith)
          dsimp only
          field_simp
          ring
        · rw [isValueValid_n] at hcn
          rw [isStateValid_iff]
          exact ⟨hcl1, hcl2, hA3, hA4, hA5, hA6, hcn.1, hcn.2⟩
      · left
        exact ⟨_, by rw [heq, if_neg hcn]⟩
    · have hb1 : (getBounds "V").min = 10 := by norm_num +decide [getBounds]
      have hb2 : (getBounds "V").max = 50 := by norm_num +decide [getBounds]
      rw [hb1, hb2] at heq
      have hQ : setVar A "V" (clamp tv 10 50) = ⟨A.P, clamp tv 10 50, A.T, A.n⟩ := by
        simp +decide only [setVar, reduceIte]
      rw [hQ] at heq
      dsimp only at heq
      obtain ⟨hcl1, hcl2⟩ := clamp_mem tv 10 50 (by norm_num)
      by_cases hcn : isValueValid "n" (A.P * 1000 * clamp tv 10 50 / 1000 / (R * A.T))
      · right
        rw [heq, if_pos hcn]
        refine ⟨_, rfl, ?_, ?_⟩
        · have hT0 : A.T ≠ 0 := ne_of_gt (by linarith)
          dsimp only
          field_simp
          ring
        · rw [isValueValid_n] at hcn
          rw [isStateValid_iff]
          exact ⟨hA1, hA2, hcl1, hcl2, hA5, hA6, hcn.1, hcn.2⟩
      · left
        exact ⟨_, by rw [heq, if_neg hcn]⟩
    · have hb1 : (getBounds "T").min = 200 := by norm_num +decide [getBounds]
      have hb2 : (getBounds "T").max = 400 := by norm_num +decide [getBounds]
      rw [hb1, hb2] at heq
      have hQ : setVar A "T" (clamp tv 200 400) = ⟨A.P, A.V, clamp tv 200 400, A.n⟩ := by
        simp +decide only [setVar, reduceIte]
      rw [hQ] at heq
      dsimp only at heq
      obtain ⟨hcl1, hcl2⟩ := clamp_mem tv 200 400 (by norm_num)
      by_cases hcn : isValueValid "n" (A.P * 1000 * A.V / 1000 / (R * clamp tv 200 400))
      · right
        rw [heq, if_pos hcn]
        refine ⟨_, rfl, ?_, ?_⟩
        · have hT0 : clamp tv 200 400 ≠ 0 := ne_of_gt (by linarith)
          dsimp only
          field_simp
          ring
        · rw [isValueValid_n] at hcn
          rw [isStateValid_iff]
          exact ⟨hA1, hA2, hA3, hA4, hcl1, hcl2, hcn.1, hcn.2⟩
      · left
        exact ⟨_, by rw [heq, if_neg hcn]⟩

/-- Claim C1 as amended: for every in-bounds state, every valid lock
and every request with an in-bounds value, `calculateNewState` returns
either a failure or a success whose state satisfies the ideal-gas law
`P·V = n·R·T` exactly (hence within any relative tolerance) — the
ideal-gas law regardless of the state's van der Waals parameters, which
the coordinator ignores — and whose four scalars all lie within the
bounds table. -/
theorem C1_amended_ideal_gas_and_bounds (g : GasState) (c : ChangeInfo)
    (hg : isStateValid g.toStateQuad)
    (hlock : g.lockedVariable = none ∨ g.lockedVariable = some "P" ∨
      g.lockedVariable = some "V" ∨ g.lockedVariable = some "T")
    (hvar : c.varName = "P" ∨ c.varName = "V" ∨ c.varName = "T" ∨ c.varName = "n")
    (hval : isValueValid c.varName c.value) :
    (∃ reason, calculateNewState g c = CoordResult.failure reason) ∨
    (∃ ns, calculateNewState g c = CoordResult.success ns ∧
      ns.P * ns.V = ns.n * R * ns.T ∧ isStateValid ns) := by
  rw [isStateValid_iff] at hg
  obtain ⟨hP1, hP2, hV1, hV2, hT1, hT2, hn1, hn2⟩ := hg
  have hR0 : R ≠ 0 := by norm_num [R]
  have hP0 : g.P ≠ 0 := ne_of_gt (by linarith)
  have hV0 : g.V ≠ 0 := ne_of_gt (by linarith)
  have hT0 : g.T ≠ 0 := ne_of_gt (by linarith)
  have hn0 : g.n ≠ 0 := ne_of_gt (by linarith)
  rcases hvar with hv | hv | hv | hv
  · -- variable P
    have hvn : c.varName ≠ "n" := by
      rw [hv]
      decide
    have happ : appliedRequest g c = ⟨c.value, g.V, g.T, g.n⟩ := by
      simp +decide only [appliedRequest, hv, reduceIte]
    rw [hv] at hval
    rw [isValueValid_P] at hval
    have hc0 : c.value ≠ 0 := ne_of_gt (by linarith [hval.1])
    have hAv : isStateValid (appliedRequest g c) := by
      rw [happ, isStateValid_iff]
      exact ⟨hval.1, hval.2, hV1, hV2, hT1, hT2, hn1, hn2⟩
    rcases hlock with hl | hl | hl | hl
    · -- no lock: dependent T
      have hdep : dependentOf g c =
          some ("T", c.value * 1000 * g.V / 1000 / (g.n * R)) := by
        simp +decide only [dependentOf, hv, hl, reduceIte]
      refine coord_defined_spec g c _ _ hvn hdep (Or.inr (Or.inr rfl)) hAv ?_
      rw [happ]
      rw [show setVar (⟨c.value, g.V, g.T, g.n⟩ : StateQuad) "T"
            (c.value * 1000 * g.V / 1000 / (g.n * R)) =
          ⟨c.value, g.V, c.value * 1000 * g.V / 1000 / (g.n * R), g.n⟩ from by
        simp +decide only [setVar, reduceIte]]
      dsimp only
      field_simp
      ring
    · -- P locked, P changed: no pairing
      have hdep : dependentOf g c = none := by
        simp +decide only [dependentOf, hv, hl, reduceIte]
      exact Or.inl ⟨_, coord_none_eq g c hvn hdep⟩
    · -- V locked: dependent T
      have hdep : dependentOf g c =
          some ("T", c.value * 1000 * g.V / 1000 / (g.n * R)) := by
        simp +decide only [dependentOf, hv, hl, reduceIte]
      refine coord_defined_spec g c _ _ hvn hdep (Or.inr (Or.inr rfl)) hAv ?_
      rw [happ]
      rw [show setVar (⟨c.value, g.V, g.T, g.n⟩ : StateQuad) "T"
            (c.value * 1000 * g.V / 1000 / (g.n * R)) =
          ⟨c.value, g.V, c.value * 1000 * g.V / 1000 / (g.n * R), g.n⟩ from by
        simp +decide only [setVar, reduceIte]]
      dsimp only
      field_simp
      ring
    · -- T locked: dependent V
      have hdep : dependentOf g c =
          some ("V", g.n * R * g.T / (c.value * 1000) * 1000) := by
        simp +decide only [dependentOf, hv, hl, reduceIte]
      refine coord_defined_spec g c _ _ hvn hdep (Or.inr (Or.inl rfl)) hAv ?_
      rw [happ]
      rw [show setVar (⟨c.value, g.V, g.T, g.n⟩ : StateQuad) "V"
            (g.n * R * g.T / (c.value * 1000) * 1000) =
          ⟨c.value, g.n * R * g.T / (c.value * 1000) * 1000, g.T, g.n⟩ from by
        simp +decide only [setVar, reduceIte]]
      dsimp only
      field_simp
      ring
  · -- variable V
    have hvn : c.varName ≠ "n" := by
      rw [hv]
      decide
    have happ : appliedRequest g c = ⟨g.P, c.value, g.T, g.n⟩ := by
      simp +decide only [appliedRequest, hv, reduceIte]
    rw [hv] at hval
    rw [isValueValid_V] at hval
    have hc0 : c.value ≠ 0 := ne_of_gt (by linarith [hval.1])
    have hAv : isStateValid (appliedRequest g c) := by
      rw [happ, isStateValid_iff]
      exact ⟨hP1, hP2, hval.1, hval.2, hT1, hT2, hn1, hn2⟩
    rcases hlock with hl | hl | hl | hl
    · -- no lock: dependent P
      have hdep : dependentOf g c =
          some ("P", g.n * R * g.T / (c.value / 1000) / 1000) := by
        simp +decide only [dependentOf, hv, hl, reduceIte]
      refine coord_defined_spec g c _ _ hvn hdep (Or.inl rfl) hAv ?_
      rw [happ]
      rw [show setVar (⟨g.P, c.value, g.T, g.n⟩ : StateQuad) "P"
            (g.n * R * g.T / (c.value / 1000) / 1000) =
          ⟨g.n * R * g.T / (c.value / 1000) / 1000, c.value, g.T, g.n⟩ from by
        simp +decide only [setVar, reduceIte]]
      dsimp only
      field_simp
      ring
    · -- P locked: dependent T
      have hdep : dependentOf g c =
          some ("T", g.P * 1000 * c.value / 1000 / (g.n * R)) := by
        simp +decide only [dependentOf, hv, hl, reduceIte]
      refine coord_defined_spec g c _ _ hvn hdep (Or.inr (Or.inr rfl)) hAv ?_
      rw [happ]
      rw [show setVar (⟨g.P, c.value, g.T, g.n⟩ : StateQuad) "T"
            (g.P * 1000 * c.value / 1000 / (g.n * R)) =
          ⟨g.P, c.value, g.P * 1000 * c.value / 1000 / (g.n * R), g.n⟩ from by
        simp +decide only [setVar, reduceIte]]
      dsimp only
      field_simp
      ring
    · -- V locked, V changed: no pairing
      have hdep : dependentOf g c = none := by
        simp +decide only [dependentOf, hv, hl, reduceIte]
      exact Or.inl ⟨_, coord_none_eq g c hvn hdep⟩
    · -- T locked: dependent P
      have hdep : dependentOf g c =
          some ("P", g.n * R * g.T / (c.value / 1000) / 1000) := by
        simp +decide only [dependentOf, hv, hl, reduceIte]
      refine coord_defined_spec g c _ _ hvn hdep (Or.inl rfl) hAv ?_
      rw [happ]
      rw [show setVar (⟨g.P, c.value, g.T, g.n⟩ : StateQuad) "P"
            (g.n * R * g.T / (c.value / 1000) / 1000) =
          ⟨g.n * R * g.T / (c.value / 1000) / 1000, c.value, g.T, g.n⟩ from by
        simp +decide only [setVar, reduceIte]]
      dsimp only
      field_simp
      ring
  · -- variable T
    have hvn : c.varName ≠ "n" := by
      rw [hv]
      decide
    have happ : appliedRequest g c = ⟨g.P, g.V, c.value, g.n⟩ := by
      simp +decide only [appliedRequest, hv, reduceIte]
    rw [hv] at hval
    rw [isValueValid_T] at hval
    have hc0 : c.value ≠ 0 := ne_of_gt (by linarith [hval.1])
    have hAv : isStateValid (appliedRequest g c) := by
      rw [happ, isStateValid_iff]
      exact ⟨hP1, hP2, hV1, hV2, hval.1, hval.2, hn1, hn2⟩
    rcases hlock with hl | hl | hl | hl
    · -- no lock: dependent P
      have hdep : dependentOf g c =
          some ("P", g.n * R * c.value / (g.V / 1000) / 1000) := by
        simp +decide only [dependentOf, hv, hl, reduceIte]
      refine coord_defined_spec g c _ _ hvn hdep (Or.inl rfl) hAv ?_
      rw [happ]
      rw [show setVar (⟨g.P, g.V, c.value, g.n⟩ : StateQuad) "P"
            (g.n * R * c.value / (g.V / 1000) / 1000) =
          ⟨g.n * R * c.value / (g.V / 1000) / 1000, g.V, c.value, g.n⟩ from by
        simp +decide only [setVar, reduceIte]]
      dsimp only
      field_simp
      ring
    · -- P locked: dependent V
      have hdep : dependentOf g c =
          some ("V", g.n * R * c.value / (g.P * 1000) * 1000) := by
        simp +decide only [dependentOf, hv, hl, reduceIte]
      refine coord_defined_spec g c _ _ hvn hdep (Or.inr (Or.inl rfl)) hAv ?_
      rw [happ]
      rw [show setVar (⟨g.P, g.V, c.value, g.n⟩ : StateQuad) "V"
            (g.n * R * c.value / (g.P * 1000) * 1000) =
          ⟨g.P, g.n * R * c.value / (g.P * 1000) * 1000, c.value, g.n⟩ from by
        simp +decide only [setVar, reduceIte]]
      dsimp only
      field_simp
      ring
    · -- V locked: dependent P
      have hdep : dependentOf g c =
          some ("P", g.n * R * c.value / (g.V / 1000) / 1000) := by
        simp +decide only [dependentOf, hv, hl, reduceIte]
      refine coord_defined_spec g c _ _ hvn hdep (Or.inl rfl) hAv ?_
      rw [happ]
      rw [show setVar (⟨g.P, g.V, c.value, g.n⟩ : StateQuad) "P"
            (g.n * R * c.value / (g.V / 1000) / 1000) =
          ⟨g.n * R * c.value / (g.V / 1000) / 1000, g.V, c.value, g.n⟩ from by
        simp +decide only [setVar, reduceIte]]
      dsimp only
      field_simp
      ring
    · -- T locked, T changed: no pairing
      have hdep : dependentOf g c = none := by
        simp +decide only [dependentOf, hv, hl, reduceIte]
      exact Or.inl ⟨_, coord_none_eq g c hvn hdep⟩
  · -- variable n: direct moles mode
    rw [hv] at hval
    rw [isValueValid_n] at hval
    rcases hlock with hl | hl | hl | hl
    · have heq := direct_eq_keepV g c hv (Or.inl hl)
      by_cases hsv : isStateValid
          (⟨c.value * R * g.T / (g.V / 1000) / 1000, g.V, g.T, c.value⟩ : StateQuad)
      · right
        rw [heq, if_pos hsv]
        refine ⟨_, rfl, ?_, hsv⟩
        dsimp only
        field_simp
        ring
      · left
        rw [heq, if_neg hsv]
        exact ⟨_, rfl⟩
    · have heq := direct_eq_lockP g c hv hl
      by_cases hsv : isStateValid
          (⟨g.P, c.value * R * g.T / (g.P * 1000) * 1000, g.T, c.value⟩ : StateQuad)
      · right
        rw [heq, if_pos hsv]
        refine ⟨_, rfl, ?_, hsv⟩
        dsimp only
        field_simp
        ring
      · left
        rw [heq, if_neg hsv]
        exact ⟨_, rfl⟩
    · have heq := direct_eq_keepV g c hv (Or.inr (Or.inl hl))
      by_cases hsv : isStateValid
          (⟨c.value * R * g.T / (g.V / 1000) / 1000, g.V, g.T, c.value⟩ : StateQuad)
      · right
        rw [heq, if_pos hsv]
        refine ⟨_, rfl, ?_, hsv⟩
        dsimp only
        field_simp
        ring
      · left
        rw [heq, if_neg hsv]
        exact ⟨_, rfl⟩
    · have heq := direct_eq_keepV g c hv (Or.inr (Or.inr hl))
      by_cases hsv : isStateValid
          (⟨c.value * R * g.T / (g.V / 1000) / 1000, g.V, g.T, c.value⟩ : StateQuad)
      · right
        rw [heq, if_pos hsv]
        refine ⟨_, rfl, ?_, hsv⟩
        dsimp only
        field_simp
        ring
      · left
        rw [heq, if_neg hsv]
        exact ⟨_, rfl⟩

/-- Witness for C1 as amended: at the claim's own scenario (ideal gas,
no lock, `V := 11.2`) the hypotheses hold and the conclusion follows by
the theorem. -/
theorem C1_amended_ideal_gas_and_bounds_witness :
    isStateValid (⟨101.325, 22.4, 273.15, 1⟩ : StateQuad) ∧
    isValueValid "V" 11.2 ∧
    ((∃ reason, calculateNewState ⟨⟨101.325, 22.4, 273.15, 1⟩, none, 0, 0⟩ ⟨"V", 11.2⟩ =
        CoordResult.failure reason) ∨
      (∃ ns, calculateNewState ⟨⟨101.325, 22.4, 273.15, 1⟩, none, 0, 0⟩ ⟨"V", 11.2⟩ =
        CoordResult.success ns ∧ ns.P * ns.V = ns.n * R * ns.T ∧ isStateValid ns)) :=
  ⟨by norm_num +decide [isStateValid, getBounds],
   by norm_num +decide [isValueValid, getBounds],
   C1_amended_ideal_gas_and_bounds ⟨⟨101.325, 22.4, 273.15, 1⟩, none, 0, 0⟩ ⟨"V", 11.2⟩
     (by norm_num +decide [isStateValid, getBounds])
     (Or.inl rfl)
     (Or.inr (Or.inl rfl))
     (by norm_num +decide [isValueValid, getBounds])⟩

/-- Claim C2 as amended: when the dependent variable's theoretical
value `tv` falls outside its bound, the coordinator clamps it to the
nearest bound, re-derives the moles from `n = P·V/(R·T)` over the
clamped quad, and then either succeeds carrying exactly the clamped
state with the re-derived `n` — and nothing more: the source result is
`{success, newState}` with no notification — or, when the re-derived
`n` is out of bounds, fails with the reason that names the dependent
variable followed by the fixed coordination-failure text (the value of
`n` is not part of the reason). -/
theorem C2_amended_clamp_and_rederive (g : GasState) (c : ChangeInfo)
    (dv : String) (tv : ℚ)
    (hn : c.varName ≠ "n")
    (hdep : dependentOf g c = some (dv, tv))
    (hout : ¬ isValueValid dv tv) :
    (tv < (getBounds dv).min →
      clamp tv (getBounds dv).min (getBounds dv).max = (getBounds dv).min) ∧
    ((getBounds dv).max < tv →
      clamp tv (getBounds dv).min (getBounds dv).max = (getBounds dv).max) ∧
    (isValueValid "n"
        ((setVar (appliedRequest g c) dv (clamp tv (getBounds dv).min (getBounds dv).max)).P
          * 1000 *
          (setVar (appliedRequest g c) dv (clamp tv (getBounds dv).min (getBounds dv).max)).V
          / 1000 /
          (R * (setVar (appliedRequest g c) dv
            (clamp tv (getBounds dv).min (getBounds dv).max)).T)) →
      calculateNewState g c = CoordResult.success
        { setVar (appliedRequest g c) dv (clamp tv (getBounds dv).min (getBounds dv).max) with
          n := (setVar (appliedRequest g c) dv
              (clamp tv (getBounds dv).min (getBounds dv).max)).P * 1000 *
            (setVar (appliedRequest g c) dv
              (clamp tv (getBounds dv).min (getBounds dv).max)).V / 1000 /
            (R * (setVar (appliedRequest g c) dv
              (clamp tv (getBounds dv).min (getBounds dv).max)).T) }) ∧
    (¬ isValueValid "n"
        ((setVar (appliedRequest g c) dv (clamp tv (getBounds dv).min (getBounds dv).max)).P
          * 1000 *
          (setVar (appliedRequest g c) dv (clamp tv (getBounds dv).min (getBounds dv).max)).V
          / 1000 /
          (R * (setVar (appliedRequest g c) dv
            (clamp tv (getBounds dv).min (getBounds dv).max)).T)) →
      calculateNewState g c =
        CoordResult.failure (dv ++ r"超界且物质的量协调失败")) := by
  have hb := getBounds_min_le_max dv
  refine ⟨?_, ?_, ?_, ?_⟩
  · intro hlt
    unfold clamp
    rw [min_eq_right (hlt.le.trans hb), max_eq_left hlt.le]
  · intro hgt
    unfold clamp
    rw [min_eq_left hgt.le, max_eq_right hb]
  · intro hvalid
    rw [calculateNewState, if_neg hn, calculateWithMolesAsCoordinator, hdep]
    simp only [hout, hvalid, if_true, if_false, ite_true, ite_false]
  · intro hinvalid
    rw [calculateNewState, if_neg hn, calculateWithMolesAsCoordinator, hdep]
    simp only [hout, hinvalid, if_true, if_false, ite_true, ite_false]

/-- Witness for C2 as amended, on the coordination-failure side: with
`P = 200` locked, `n = 3`, pushing `V` to `50` drives the dependent `T`
beyond its maximum and the re-derived moles out of range, so the call
fails with the dependent variable's name in front of the fixed text. -/
theorem C2_amended_clamp_and_rederive_witness :
    calculateNewState ⟨⟨200, 30, 250, 3⟩, some "P", 0, 0⟩ ⟨"V", 50⟩ =
      CoordResult.failure ("T" ++ r"超界且物质的量协调失败") :=
  (C2_amended_clamp_and_rederive ⟨⟨200, 30, 250, 3⟩, some "P", 0, 0⟩ ⟨"V", 50⟩
    "T" (5000000 / 12471)
    (by decide)
    (by norm_num +decide [dependentOf, R])
    (by norm_num +decide [isValueValid, getBounds])).2.2.2
    (by norm_num +decide [isValueValid, getBounds, setVar, appliedRequest, clamp, R])

/-- Claim C3 as amended: a direct moles change under a `P` lock whose
recomputed volume leaves `[10, 50]` fails with the fixed generic reason
(the reason blames the moles change for driving "other variables" out
of bounds without naming which), and the caller-visible state after the
call is unchanged, since the caller merges the result only on
success. -/
theorem C3_amended_direct_failure_keeps_state (g : GasState) (v : ℚ)
    (hlock : g.lockedVariable = some "P")
    (hout : ¬ isValueValid "V" (v * R * g.T / (g.P * 1000) * 1000)) :
    calculateNewState g ⟨"n", v⟩ =
      CoordResult.failure (r"物质的量变化导致其他变量超出边界") ∧
    handleControlChange g ⟨"n", v⟩ = g := by
  have hprop : ¬ isStateValid ⟨g.P, v * R * g.T / (g.P * 1000) * 1000, g.T, v⟩ :=
    fun h => hout ⟨h.2.2.1, h.2.2.2.1⟩
  have hfail : calculateNewState g ⟨"n", v⟩ =
      CoordResult.failure (r"物质的量变化导致其他变量超出边界") := by
    rw [calculateNewState, if_pos rfl, calculateWithDirectMolesChange]
    simp +decide [hlock, hprop]
  refine ⟨hfail, ?_⟩
  rw [handleControlChange, hfail]

/-- Witness for C3 as amended: from `P=50, V=40, T=400, n=1` with `P`
locked, requesting `n := 2.9` would produce `V ≈ 192.9 L`; the call
fails with the generic reason and the state is unchanged. -/
theorem C3_amended_direct_failure_keeps_state_witness :
    calculateNewState ⟨⟨50, 40, 400, 1⟩, some "P", 0, 0⟩ ⟨"n", 2.9⟩ =
      CoordResult.failure (r"物质的量变化导致其他变量超出边界") ∧
    handleControlChange ⟨⟨50, 40, 400, 1⟩, some "P", 0, 0⟩ ⟨"n", 2.9⟩ =
      ⟨⟨50, 40, 400, 1⟩, some "P", 0, 0⟩ :=
  C3_amended_direct_failure_keeps_state ⟨⟨50, 40, 400, 1⟩, some "P", 0, 0⟩ 2.9
    rfl (by norm_num +decide [isValueValid, getBounds, R])

/-- Claim C10: `calculateVolumeFromWallPosition` returns a volume
within `[10, 50]` for every wall coordinate (so the volume written back
on drag-end is always in bounds), and whenever the mapping satisfies
`minX ≤ maxX` (true of every mapping the initialisation computes),
`calculatePistonPosition` returns a position within `[minX, maxX]` for
every volume input. -/
theorem C10_mapping_bounded (vm : VolumeMapping) (wallX volume : ℚ)
    (h : vm.minX ≤ vm.maxX) :
    (10 ≤ calculateVolumeFromWallPosition vm wallX ∧
      calculateVolumeFromWallPosition vm wallX ≤ 50) ∧
    (vm.minX ≤ calculatePistonPosition vm volume ∧
      calculatePistonPosition vm volume ≤ vm.maxX) := by
  constructor
  · simp only [calculateVolumeFromWallPosition, minVolume, maxVolume]
    exact ⟨le_max_left _ _, max_le (by norm_num) (min_le_left _ _)⟩
  · have h10 : (10 : ℚ) ≤ max 10 (min 50 volume) := le_max_left _ _
    have h50 : max 10 (min 50 volume) ≤ 50 := max_le (by norm_num) (min_le_left _ _)
    have t0 : 0 ≤ (max 10 (min 50 volume) - 10) / (50 - 10) := by
      apply div_nonneg
      · linarith
      · norm_num
    have t1 : (max 10 (min 50 volume) - 10) / (50 - 10) ≤ 1 := by
      rw [div_le_one (by norm_num)]
      linarith
    simp only [calculatePistonPosition, minVolume, maxVolume]
    constructor
    · have hm := mul_nonneg t0 (by linarith : (0 : ℚ) ≤ vm.maxX - vm.minX)
      linarith
    · have hm := mul_le_of_le_one_left (by linarith : (0 : ℚ) ≤ vm.maxX - vm.minX) t1
      linarith

/-- Witness for C10 at the initial mapping `minX=100, maxX=300`, a wall
position far beyond the arena, and the default volume. -/
theorem C10_mapping_bounded_witness :
    (10 ≤ calculateVolumeFromWallPosition ⟨100, 300⟩ 500 ∧
      calculateVolumeFromWallPosition ⟨100, 300⟩ 500 ≤ 50) ∧
    ((⟨100, 300⟩ : VolumeMapping).minX ≤ calculatePistonPosition ⟨100, 300⟩ 22.4 ∧
      calculatePistonPosition ⟨100, 300⟩ 22.4 ≤ (⟨100, 300⟩ : VolumeMapping).maxX) :=
  C10_mapping_bounded ⟨100, 300⟩ 500 22.4 (by norm_num)

/-- Claim C6: on a step without dragging the homing controller computes
`e = target − x`; inside the half-pixel dead band it zeroes the wall
velocity and, when additionally `|e| > 0.1`, snaps the position exactly
to the target; otherwise it sets the horizontal velocity to `e × 0.2`
(zeroing the vertical one); while dragging it changes nothing. -/
theorem C6_homing_controller (vm : VolumeMapping) (drag : Bool) (V : ℚ) (w : Wall) :
    (drag = true → homingStep vm drag V w = w) ∧
    (drag = false → |calculateTargetXFromVolume vm V - w.x| < 0.5 →
      0.1 < |calculateTargetXFromVolume vm V - w.x| →
      homingStep vm drag V w =
        { w with x := calculateTargetXFromVolume vm V, vx := 0, vy := 0 }) ∧
    (drag = false → |calculateTargetXFromVolume vm V - w.x| < 0.5 →
      |calculateTargetXFromVolume vm V - w.x| ≤ 0.1 →
      homingStep vm drag V w = { w with vx := 0, vy := 0 }) ∧
    (drag = false → 0.5 ≤ |calculateTargetXFromVolume vm V - w.x| →
      homingStep vm drag V w =
        { w with vx := (calculateTargetXFromVolume vm V - w.x) * 0.2, vy := 0 }) := by
  refine ⟨?_, ?_, ?_, ?_⟩
  · intro hd
    subst hd
    rfl
  · intro hd h1 h2
    subst hd
    simp only [homingStep]
    rw [if_neg (by decide), if_pos h1, if_pos h2]
  · intro hd h1 h2
    subst hd
    simp only [homingStep]
    rw [if_neg (by decide), if_pos h1, if_neg (not_lt.mpr h2)]
  · intro hd h1
    subst hd
    simp only [homingStep]
    rw [if_neg (by decide), if_neg (not_lt.mpr h1)]

/-- Witness for C6: with the initial mapping and `V = 30` the target is
`185`; from `x = 185.3` (error `−0.3`, inside the dead band but above
the snap threshold) the controller zeroes the velocity and snaps to the
target. -/
theorem C6_homing_controller_witness :
    homingStep ⟨100, 300⟩ false 30 ⟨185.3, 50, 2, 0⟩ = ⟨185, 50, 0, 0⟩ := by
  have h := (C6_homing_controller ⟨100, 300⟩ false 30 ⟨185.3, 50, 2, 0⟩).2.1 rfl
    (by
      rw [abs_lt]
      constructor <;>
        norm_num [calculateTargetXFromVolume, calculatePistonPosition,
          minVolume, maxVolume, pistonThickness])
    (by
      rw [lt_abs]
      right
      norm_num [calculateTargetXFromVolume, calculatePistonPosition,
        minVolume, maxVolume, pistonThickness])
  rw [h]
  norm_num [calculateTargetXFromVolume, calculatePistonPosition,
    minVolume, maxVolume, pistonThickness]

/-- Transport of `List.get` along a list equality. -/
theorem get_of_list_eq {l l' : List Particle} (h : l = l') (i : ℕ) (h2 : i < l.length) :
    l.get ⟨i, h2⟩ = l'.get ⟨i, h ▸ h2⟩ := by
  subst h
  rfl

/-- The three branches of the count-adjustment step. -/
theorem updateParticleCount_eq (ps : List Particle) (target : ℕ) (fresh : ℕ → Particle) :
    (ps.length < target ∧ updateParticleCount ps target fresh =
      ps ++ (List.range (target - ps.length)).map fresh) ∨
    (target < ps.length ∧ updateParticleCount ps target fresh = ps.take target) ∨
    (ps.length = target ∧ updateParticleCount ps target fresh = ps) := by
  unfold updateParticleCount
  split_ifs with ha hb
  · exact Or.inl ⟨ha, rfl⟩
  · exact Or.inr (Or.inl ⟨hb, rfl⟩)
  · exact Or.inr (Or.inr ⟨by omega, rfl⟩)

/-- The count-adjustment step always reaches the target count. -/
theorem updateParticleCount_length (ps : List Particle) (target : ℕ) (fresh : ℕ → Particle) :
    (updateParticleCount ps target fresh).length = target := by
  rcases updateParticleCount_eq ps target fresh with ⟨hc, heq⟩ | ⟨hc, heq⟩ | ⟨hc, heq⟩
  · rw [heq]
    simp only [List.length_append, List.length_map, List.length_range]
    omega
  · rw [heq]
    simp only [List.length_take]
    omega
  · rw [heq]
    omega

/-- A retained particle (index below both the old length and the
target) is exactly the old particle at that index. -/
theorem updateParticleCount_get_retained (ps : List Particle) (target : ℕ)
    (fresh : ℕ → Particle) (i : ℕ) (h1 : i < ps.length)
    (h2 : i < (updateParticleCount ps target fresh).length) :
    (updateParticleCount ps target fresh).get ⟨i, h2⟩ = ps.get ⟨i, h1⟩ := by
  rcases updateParticleCount_eq ps target fresh with ⟨hc, heq⟩ | ⟨hc, heq⟩ | ⟨hc, heq⟩
  · rw [get_of_list_eq heq i h2]
    simp only [List.get_eq_getElem]
    rw [List.getElem_append_left h1]
  · rw [get_of_list_eq heq i h2]
    simp only [List.get_eq_getElem]
    rw [List.getElem_take]
  · rw [get_of_list_eq heq i h2]

/-- An index at or above the old length holds a freshly spawned
particle. -/
theorem updateParticleCount_get_spawned (ps : List Particle) (target : ℕ)
    (fresh : ℕ → Particle) (i : ℕ) (h1 : ps.length ≤ i)
    (h2 : i < (updateParticleCount ps target fresh).length) :
    (updateParticleCount ps target fresh).get ⟨i, h2⟩ = fresh (i - ps.length) := by
  have hlen := updateParticleCount_length ps target fresh
  rcases updateParticleCount_eq ps target fresh with ⟨hc, heq⟩ | ⟨hc, heq⟩ | ⟨hc, heq⟩
  · rw [get_of_list_eq heq i h2]
    simp only [List.get_eq_getElem]
    rw [List.getElem_append_right h1]
    simp only [List.getElem_map, List.getElem_range]
  · omega
  · omega

/-- A freshly spawned particle lies inside the safe interior spawn
rectangle and starts at rest. -/
theorem spawnParticle_mem (vm : VolumeMapping) (r1 r2 : ℝ)
    (h1 : 0 ≤ r1 ∧ r1 < 1) (h2 : 0 ≤ r2 ∧ r2 < 1)
    (hgeom : updSafeMargin < updSpawnMaxX vm) :
    (updSafeMargin : ℝ) ≤ (spawnParticle vm r1 r2).x ∧
    (spawnParticle vm r1 r2).x < (updSpawnMaxX vm : ℝ) ∧
    (updSafeMargin : ℝ) ≤ (spawnParticle vm r1 r2).y ∧
    (spawnParticle vm r1 r2).y < (simHeight : ℝ) - (updSafeMargin : ℝ) ∧
    (spawnParticle vm r1 r2).vx = 0 ∧ (spawnParticle vm r1 r2).vy = 0 := by
  have hg : (updSafeMargin : ℝ) < (updSpawnMaxX vm : ℝ) := by
    exact_mod_cast hgeom
  have hm : (updSafeMargin : ℝ) = 30 := by
    norm_num [updSafeMargin, wallThickness, particleRadius]
  have hh : (simHeight : ℝ) = 250 := by
    norm_num [simHeight]
  unfold spawnParticle
  dsimp only
  refine ⟨?_, ?_, ?_, ?_, rfl, rfl⟩
  · nlinarith [h1.1, h1.2, hg]
  · nlinarith [h1.1, h1.2, hg]
  · nlinarith [h2.1, h2.2, hm, hh]
  · nlinarith [h2.1, h2.2, hm, hh]

/-- Claim C4 is refuted on the code: creation scales moles by 20 while
the update path scales by 10, and the update pass reassigns every
pre-existing particle's velocity (through the temperature application)
even when the count is already on target: one particle with velocity
`(1, 0)` at `T = 200 K` comes out with velocity `(0.12, 0)` — the
position is untouched but the velocity is not. -/
theorem C4_counterexample :
    createParticleCount 1 = 20 ∧
    updateTargetCount 1 = 10 ∧
    createParticleCount 1 ≠ updateTargetCount 1 ∧
    updateParticleCountAndSpeed ⟨100, 300⟩ [⟨20, 20, 1, 0⟩] 0.1 200
        (fun _ => 0) (fun _ => 0) (fun _ => 0) =
      [⟨20, 20, 0.12, 0⟩] ∧
    (0.12 : ℝ) ≠ 1 := by
  refine ⟨?_, ?_, ?_, ?_, by norm_num⟩
  · norm_num [createParticleCount, round_eq]
  · norm_num [updateTargetCount, round_eq]
  · norm_num [createParticleCount, updateTargetCount, round_eq]
  · have htarget : ((updateTargetCount 0.1).toNat) = 1 := by
      norm_num [updateTargetCount, round_eq]
    simp only [updateParticleCountAndSpeed, htarget, updateParticleCount,
      applyTemperatureToMolecules, baseSpeedOf,
      MIN_SPEED, MAX_SPEED, TEMP_MIN, TEMP_MAX, SPEED_EXPONENT]
    norm_num

/-- Claim C4 as amended: on an `n` change the update pass drives the
particle count to `round(10·n)` (creation used `max(1, round(20·n))`, a
different factor); missing particles are appended, spawned at rest
inside the safe interior margins; surplus particles are removed from
the end of the collection, so every retained particle keeps its
position; but every particle's velocity — retained or fresh — is
reassigned to the temperature-derived speed in a fresh random
direction. -/
theorem C4_amended_population_update (vm : VolumeMapping) (ps : List Particle)
    (moles : ℚ) (temperature : ℝ) (r1 r2 angles : ℕ → ℝ)
    (hr1 : ∀ i, 0 ≤ r1 i ∧ r1 i < 1) (hr2 : ∀ i, 0 ≤ r2 i ∧ r2 i < 1)
    (hgeom : updSafeMargin < updSpawnMaxX vm) :
    ((updateParticleCountAndSpeed vm ps moles temperature r1 r2 angles).length =
      (updateTargetCount moles).toNat) ∧
    (∀ (i : ℕ) (h1 : i < ps.length)
        (h2 : i < (updateParticleCountAndSpeed vm ps moles temperature r1 r2 angles).length),
      ((updateParticleCountAndSpeed vm ps moles temperature r1 r2 angles).get ⟨i, h2⟩).x =
        (ps.get ⟨i, h1⟩).x ∧
      ((updateParticleCountAndSpeed vm ps moles temperature r1 r2 angles).get ⟨i, h2⟩).y =
        (ps.get ⟨i, h1⟩).y) ∧
    (∀ (i : ℕ), ps.length ≤ i →
      ∀ h2 : i < (updateParticleCountAndSpeed vm ps moles temperature r1 r2 angles).length,
      (updSafeMargin : ℝ) ≤
        ((updateParticleCountAndSpeed vm ps moles temperature r1 r2 angles).get ⟨i, h2⟩).x ∧
      ((updateParticleCountAndSpeed vm ps moles temperature r1 r2 angles).get ⟨i, h2⟩).x <
        (updSpawnMaxX vm : ℝ) ∧
      (updSafeMargin : ℝ) ≤
        ((updateParticleCountAndSpeed vm ps moles temperature r1 r2 angles).get ⟨i, h2⟩).y ∧
      ((updateParticleCountAndSpeed vm ps moles temperature r1 r2 angles).get ⟨i, h2⟩).y <
        (simHeight : ℝ) - (updSafeMargin : ℝ)) ∧
    (∀ (i : ℕ)
        (h2 : i < (updateParticleCountAndSpeed vm ps moles temperature r1 r2 angles).length),
      ((updateParticleCountAndSpeed vm ps moles temperature r1 r2 angles).get ⟨i, h2⟩).vx =
        Real.cos (angles i) * baseSpeedOf temperature ∧
      ((updateParticleCountAndSpeed vm ps moles temperature r1 r2 angles).get ⟨i, h2⟩).vy =
        Real.sin (angles i) * baseSpeedOf temperature) := by
  have hres : updateParticleCountAndSpeed vm ps moles temperature r1 r2 angles =
      List.mapIdx
        (fun i (p : Particle) =>
          { p with
            vx := Real.cos (angles i) * baseSpeedOf temperature
            vy := Real.sin (angles i) * baseSpeedOf temperature })
        (updateParticleCount ps ((updateTargetCount moles).toNat)
          (fun i => spawnParticle vm (r1 i) (r2 i))) := by
    simp only [updateParticleCountAndSpeed, applyTemperatureToMolecules]
  have hlen0 := updateParticleCount_length ps ((updateTargetCount moles).toNat)
    (fun i => spawnParticle vm (r1 i) (r2 i))
  refine ⟨?_, ?_, ?_, ?_⟩
  · rw [hres, List.length_mapIdx, hlen0]
  · intro i h1 h2
    have h2' : i < (updateParticleCount ps ((updateTargetCount moles).toNat)
        (fun i => spawnParticle vm (r1 i) (r2 i))).length := by
      rw [hres, List.length_mapIdx] at h2
      exact h2
    rw [get_of_list_eq hres i h2, List.get_mapIdx _ _ i h2',
      updateParticleCount_get_retained ps _ _ i h1 h2']
    exact ⟨rfl, rfl⟩
  · intro i hge h2
    have h2' : i < (updateParticleCount ps ((updateTargetCount moles).toNat)
        (fun i => spawnParticle vm (r1 i) (r2 i))).length := by
      rw [hres, List.length_mapIdx] at h2
      exact h2
    rw [get_of_list_eq hres i h2, List.get_mapIdx _ _ i h2',
      updateParticleCount_get_spawned ps _ _ i hge h2']
    have hs := spawnParticle_mem vm (r1 (i - ps.length)) (r2 (i - ps.length))
      (hr1 _) (hr2 _) hgeom
    exact ⟨hs.1, hs.2.1, hs.2.2.1, hs.2.2.2.1⟩
  · intro i h2
    have h2' : i < (updateParticleCount ps ((updateTargetCount moles).toNat)
        (fun i => spawnParticle vm (r1 i) (r2 i))).length := by
      rw [hres, List.length_mapIdx] at h2
      exact h2
    rw [get_of_list_eq hres i h2, List.get_mapIdx _ _ i h2']
    exact ⟨rfl, rfl⟩

/-- Witness for C4 as amended: growing an empty arena to `n = 0.1` mol
spawns one particle and the adjusted count is one. -/
theorem C4_amended_population_update_witness :
    (updateParticleCountAndSpeed ⟨100, 300⟩ [] 0.1 300
        (fun _ => 1 / 2) (fun _ => 1 / 2) (fun _ => 0)).length =
      (updateTargetCount 0.1).toNat :=
  (C4_amended_population_update ⟨100, 300⟩ [] 0.1 300
    (fun _ => 1 / 2) (fun _ => 1 / 2) (fun _ => 0)
    (fun _ => by norm_num) (fun _ => by norm_num)
    (by
      norm_num [updSafeMargin, updSpawnMaxX, calculatePistonPosition,
        minVolume, maxVolume, pistonThickness, particleRadius, wallThickness])).1

/-- Claim C5 is refuted at the piston plane: the enforcer computes its
right limit as `pistonCenter − wallThickness/2`, but the piston body is
`pistonThickness = 30` thick, so its inner face is `pistonCenter − 15`.
A particle whose centre sits exactly on that inner face (5 px deeper
than the claimed `face − radius` limit) is left untouched by the pass,
violating the claimed rectangle. Walls at `x=10`, piston centre `162`,
`y=10/240`; the particle at `x=147` is exactly on the piston's inner
face yet `147 > 162 − 15 − 5`. -/
theorem C5_counterexample :
    enforceAllBoundaries (wallInnerBounds 10 162 10 240) [⟨147, 100, 1, 1⟩] =
      [⟨147, 100, 1, 1⟩] ∧
    ¬ ((147 : ℝ) ≤ 162 - (pistonThickness : ℝ) / 2 - (particleRadius : ℝ)) := by
  constructor
  · simp only [enforceAllBoundaries, List.map, enforceParticle, wallInnerBounds]
    norm_num [wallThickness, particleRadius]
  · norm_num [pistonThickness, particleRadius]

/-- Claim C5 as amended: after the enforcer pass every particle centre
lies in the rectangle `[left + wt/2 + r, piston − wt/2 − r] ×
[top + wt/2 + r, bottom − wt/2 − r]` where `wt` is `wallThickness` and
`r` the particle radius — on the left, top and bottom this is the wall
inner face inset by the radius as claimed, but on the right the bound
is `pistonCenter − wallThickness/2`, which allows the particle to
overlap the piston's inner face by `(pistonThickness−wallThickness)/2 =
5` px. A particle outside the left plane is moved onto it and an
inward-pointing velocity is kept while an outward one is negated; the
piston plane behaves symmetrically. -/
theorem C5_amended_enforcer_invariant (leftWallX pistonCenterX topWallY bottomWallY : ℝ)
    (ps : List Particle) (p' : Particle)
    (hx : leftWallX + (wallThickness : ℝ) / 2 + 2 * (particleRadius : ℝ) ≤
      pistonCenterX - (wallThickness : ℝ) / 2)
    (hy : topWallY + (wallThickness : ℝ) / 2 + 2 * (particleRadius : ℝ) ≤
      bottomWallY - (wallThickness : ℝ) / 2)
    (hmem : p' ∈ enforceAllBoundaries
      (wallInnerBounds leftWallX pistonCenterX topWallY bottomWallY) ps) :
    (leftWallX + (wallThickness : ℝ) / 2 + (particleRadius : ℝ) ≤ p'.x ∧
      p'.x ≤ pistonCenterX - (wallThickness : ℝ) / 2 - (particleRadius : ℝ) ∧
      topWallY + (wallThickness : ℝ) / 2 + (particleRadius : ℝ) ≤ p'.y ∧
      p'.y ≤ bottomWallY - (wallThickness : ℝ) / 2 - (particleRadius : ℝ)) ∧
    (∀ p ∈ ps, p' = enforceParticle
        (wallInnerBounds leftWallX pistonCenterX topWallY bottomWallY) p →
      (p.x - (particleRadius : ℝ) < leftWallX + (wallThickness : ℝ) / 2 →
        p'.x = leftWallX + (wallThickness : ℝ) / 2 + (particleRadius : ℝ) ∧
        (p.vx < 0 → p'.vx = -p.vx) ∧ (0 ≤ p.vx → p'.vx = p.vx)) ∧
      (¬ (p.x - (particleRadius : ℝ) < leftWallX + (wallThickness : ℝ) / 2) →
        pistonCenterX - (wallThickness : ℝ) / 2 < p.x + (particleRadius : ℝ) →
        p'.x = pistonCenterX - (wallThickness : ℝ) / 2 - (particleRadius : ℝ) ∧
        (0 < p.vx → p'.vx = -p.vx) ∧ (p.vx ≤ 0 → p'.vx = p.vx))) := by
  have hrad : (0 : ℝ) ≤ (particleRadius : ℝ) := by
    norm_num [particleRadius]
  constructor
  · obtain ⟨p, hp, hpe⟩ := List.mem_map.mp hmem
    subst hpe
    unfold enforceParticle wallInnerBounds
    dsimp only
    constructor
    · split_ifs <;> linarith
    constructor
    · split_ifs <;> linarith
    constructor
    · split_ifs <;> linarith
    · split_ifs <;> linarith
  · intro p _ hpe
    constructor
    · intro hout
      subst hpe
      unfold enforceParticle wallInnerBounds
      dsimp only
      rw [if_pos hout]
      refine ⟨rfl, ?_, ?_⟩
      · intro hvx
        rw [if_pos hout, if_pos hvx]
      · intro hvx
        rw [if_pos hout, if_neg (not_lt.mpr hvx)]
    · intro hleft hout
      subst hpe
      unfold enforceParticle wallInnerBounds
      dsimp only
      rw [if_neg hleft, if_pos hout]
      refine ⟨rfl, ?_, ?_⟩
      · intro hvx
        rw [if_neg hleft, if_pos hout, if_pos hvx]
      · intro hvx
        rw [if_neg hleft, if_pos hout, if_neg (not_lt.mpr hvx)]

/-- Witness for C5 as amended: a particle outside the left wall and
below the bottom wall is pulled back inside the enforcer's rectangle. -/
theorem C5_amended_enforcer_invariant_witness :
    (10 + (wallThickness : ℝ) / 2 + (particleRadius : ℝ) ≤
        (⟨25, 225, 2, -3⟩ : Particle).x ∧
      (⟨25, 225, 2, -3⟩ : Particle).x ≤ 162 - (wallThickness : ℝ) / 2 - (particleRadius : ℝ) ∧
      10 + (wallThickness : ℝ) / 2 + (particleRadius : ℝ) ≤ (⟨25, 225, 2, -3⟩ : Particle).y ∧
      (⟨25, 225, 2, -3⟩ : Particle).y ≤ 240 - (wallThickness : ℝ) / 2 - (particleRadius : ℝ)) :=
  ((C5_amended_enforcer_invariant 10 162 10 240 [⟨0, 300, -2, 3⟩] ⟨25, 225, 2, -3⟩
    (by norm_num [wallThickness, particleRadius])
    (by norm_num [wallThickness, particleRadius])
    (by
      simp only [enforceAllBoundaries, List.map, enforceParticle, wallInnerBounds]
      norm_num [wallThickness, particleRadius])).1)

/-- Claim C7: the resolver decomposes along the centre line, applies
the 1-D elastic formulas to the normal components with the two masses,
keeps the tangential components, and therefore conserves total momentum
and total kinetic energy exactly over the reals; for two equal-mass
bodies in a head-on collision (velocities along the centre line, equal
and opposite) it exchanges the two velocities exactly. -/
theorem C7_elastic_collision_resolver (b1 b2 : SimBody)
    (hm1 : 0 < b1.mass) (hm2 : 0 < b2.mass)
    (hpos : (b1.x, b1.y) ≠ (b2.x, b2.y)) :
    (b1.mass * (resolveElasticCollision b1 b2).1.vx +
        b2.mass * (resolveElasticCollision b1 b2).2.vx =
      b1.mass * b1.vx + b2.mass * b2.vx) ∧
    (b1.mass * (resolveElasticCollision b1 b2).1.vy +
        b2.mass * (resolveElasticCollision b1 b2).2.vy =
      b1.mass * b1.vy + b2.mass * b2.vy) ∧
    (b1.mass * ((resolveElasticCollision b1 b2).1.vx ^ 2 +
          (resolveElasticCollision b1 b2).1.vy ^ 2) +
        b2.mass * ((resolveElasticCollision b1 b2).2.vx ^ 2 +
          (resolveElasticCollision b1 b2).2.vy ^ 2) =
      b1.mass * (b1.vx ^ 2 + b1.vy ^ 2) + b2.mass * (b2.vx ^ 2 + b2.vy ^ 2)) ∧
    (b1.mass = b2.mass → b2.vx = -b1.vx → b2.vy = -b1.vy →
      ∀ k : ℝ, b1.vx = k * (b2.x - b1.x) → b1.vy = k * (b2.y - b1.y) →
      (resolveElasticCollision b1 b2).1.vx = b2.vx ∧
      (resolveElasticCollision b1 b2).1.vy = b2.vy ∧
      (resolveElasticCollision b1 b2).2.vx = b1.vx ∧
      (resolveElasticCollision b1 b2).2.vy = b1.vy) := by
  obtain ⟨px1, py1, vx1, vy1, m1⟩ := b1
  obtain ⟨px2, py2, vx2, vy2, m2⟩ := b2
  dsimp only at *
  have hm12 : m1 + m2 ≠ 0 := ne_of_gt (by linarith)
  have hne : ¬ (px2 - px1 = 0 ∧ py2 - py1 = 0) := by
    rintro ⟨h1, h2⟩
    apply hpos
    simp only [Prod.mk.injEq]
    constructor <;> linarith
  have h0 : 0 < (px2 - px1) ^ 2 + (py2 - py1) ^ 2 := by
    rcases not_and_or.mp hne with h | h
    · nlinarith [pow_two_pos_of_ne_zero h, sq_nonneg (py2 - py1)]
    · nlinarith [pow_two_pos_of_ne_zero h, sq_nonneg (px2 - px1)]
  have hd : Real.sqrt ((px2 - px1) ^ 2 + (py2 - py1) ^ 2) ≠ 0 :=
    ne_of_gt (Real.sqrt_pos.mpr h0)
  have hdd : Real.sqrt ((px2 - px1) ^ 2 + (py2 - py1) ^ 2) *
      Real.sqrt ((px2 - px1) ^ 2 + (py2 - py1) ^ 2) =
      (px2 - px1) ^ 2 + (py2 - py1) ^ 2 :=
    Real.mul_self_sqrt h0.le
  unfold resolveElasticCollision
  dsimp only
  rw [if_neg hd]
  dsimp only
  set d := Real.sqrt ((px2 - px1) ^ 2 + (py2 - py1) ^ 2) with hd_def
  have hun : ((px2 - px1) / d) ^ 2 + ((py2 - py1) / d) ^ 2 = 1 := by
    field_simp
    linarith [hdd]
  generalize hu : (px2 - px1) / d = u at hun ⊢
  generalize hv : (py2 - py1) / d = v at hun ⊢
  have hxu : px2 - px1 = u * d := by
    rw [← hu]
    field_simp
  have hyv : py2 - py1 = v * d := by
    rw [← hv]
    field_simp
  generalize hw1 : ((u * vx1 + v * vy1) * (m1 - m2) + 2 * m2 * (u * vx2 + v * vy2)) /
    (m1 + m2) = w1
  generalize hw2 : ((u * vx2 + v * vy2) * (m2 - m1) + 2 * m1 * (u * vx1 + v * vy1)) /
    (m1 + m2) = w2
  have hw1' : w1 * (m1 + m2) =
      (u * vx1 + v * vy1) * (m1 - m2) + 2 * m2 * (u * vx2 + v * vy2) := by
    rw [← hw1]
    field_simp
  have hw2' : w2 * (m1 + m2) =
      (u * vx2 + v * vy2) * (m2 - m1) + 2 * m1 * (u * vx1 + v * vy1) := by
    rw [← hw2]
    field_simp
  have hmw : m1 * w1 + m2 * w2 = m1 * (u * vx1 + v * vy1) + m2 * (u * vx2 + v * vy2) :=
    mul_right_cancel₀ hm12 (by linear_combination m1 * hw1' + m2 * hw2')
  have hsq : (m1 * w1 ^ 2 + m2 * w2 ^ 2) * (m1 + m2) ^ 2 =
      (m1 * (u * vx1 + v * vy1) ^ 2 + m2 * (u * vx2 + v * vy2) ^ 2) * (m1 + m2) ^ 2 := by
    linear_combination (m1 * (w1 * (m1 + m2) + ((u * vx1 + v * vy1) * (m1 - m2) + 2 * m2 * (u * vx2 + v * vy2)))) * hw1' + (m2 * (w2 * (m1 + m2) + ((u * vx2 + v * vy2) * (m2 - m1) + 2 * m1 * (u * vx1 + v * vy1)))) * hw2'
  have hKE : m1 * w1 ^ 2 + m2 * w2 ^ 2 =
      m1 * (u * vx1 + v * vy1) ^ 2 + m2 * (u * vx2 + v * vy2) ^ 2 :=
    mul_right_cancel₀ (pow_ne_zero 2 hm12) hsq
  refine ⟨?_, ?_, ?_, ?_⟩
  · linear_combination u * hmw + (m1 * vx1 + m2 * vx2) * hun
  · linear_combination v * hmw + (m1 * vy1 + m2 * vy2) * hun
  · linear_combination (u ^ 2 + v ^ 2) * hKE + ((m1 * (vx1 ^ 2 + vy1 ^ 2) + m2 * (vx2 ^ 2 + vy2 ^ 2)) * (u ^ 2 + v ^ 2 + 1)) * hun
  · intro hmass hvx2 hvy2 k hk1 hk2
    subst hmass
    have hw1eq : w1 = u * vx2 + v * vy2 :=
      mul_right_cancel₀ hm12 (by linear_combination hw1')
    have hw2eq : w2 = u * vx1 + v * vy1 :=
      mul_right_cancel₀ hm12 (by linear_combination hw2')
    refine ⟨?_, ?_, ?_, ?_⟩
    · rw [hw1eq, hvx2, hvy2, hk1, hk2, hxu, hyv]
      linear_combination (-(k * d * u)) * hun
    · rw [hw1eq, hvx2, hvy2, hk1, hk2, hxu, hyv]
      linear_combination (-(k * d * v)) * hun
    · rw [hw2eq, hvx2, hvy2, hk1, hk2, hxu, hyv]
      linear_combination (k * d * u) * hun
    · rw [hw2eq, hvx2, hvy2, hk1, hk2, hxu, hyv]
      linear_combination (k * d * v) * hun

/-- Witness for C7: two unit-mass bodies at `(0,0)` and `(2,0)` with
velocities `(1,0)` and `(−1,0)` exchange velocities exactly. -/
theorem C7_elastic_collision_resolver_witness :
    (resolveElasticCollision ⟨0, 0, 1, 0, 1⟩ ⟨2, 0, -1, 0, 1⟩).1.vx =
      (⟨2, 0, -1, 0, 1⟩ : SimBody).vx ∧
    (resolveElasticCollision ⟨0, 0, 1, 0, 1⟩ ⟨2, 0, -1, 0, 1⟩).1.vy =
      (⟨2, 0, -1, 0, 1⟩ : SimBody).vy ∧
    (resolveElasticCollision ⟨0, 0, 1, 0, 1⟩ ⟨2, 0, -1, 0, 1⟩).2.vx =
      (⟨0, 0, 1, 0, 1⟩ : SimBody).vx ∧
    (resolveElasticCollision ⟨0, 0, 1, 0, 1⟩ ⟨2, 0, -1, 0, 1⟩).2.vy =
      (⟨0, 0, 1, 0, 1⟩ : SimBody).vy :=
  (C7_elastic_collision_resolver ⟨0, 0, 1, 0, 1⟩ ⟨2, 0, -1, 0, 1⟩
    (by norm_num) (by norm_num)
    (by
      simp only [ne_eq, Prod.mk.injEq, not_and]
      norm_num)).2.2.2
    rfl (by norm_num) (by norm_num) (1 / 2) (by norm_num) (by norm_num)

end GasLab
